import Mathlib

/-!
Verification of the job/application matching and messaging subsystem of a
two-sided labor marketplace (Express + Drizzle/PostgreSQL backend).

The embedding models:
  * the data model of src/shared/schema.ts (entity records; machine numbers
    become Nat/Int, JS float arithmetic on rating averages becomes exact ℚ,
    timestamps become Nat ticks, nullable columns become Option),
  * the two storage implementations of src/server/auth.ts (MemStorage over
    JS Maps and DatabaseStorage over SQL; both are modelled as pure
    functions over a Storage record whose lists keep insertion order, the
    iteration order of both a JS Map and an unordered SQL select in this
    model),
  * the route handlers of src/server/routes.ts that the claims reference,
    as state transformers returning the untouched store on every early
    error return,
  * the WebSocket connection registry of src/server/routes.ts.

JS stable sorts (Array.prototype.sort) and SQL ORDER BY are modelled by a
stable insertion sort parameterised by the comparator.
-/

/-! ## Data model (src/shared/schema.ts) -/

/-- UserType constants (schema.ts lines 6-10). -/
inductive UserType where
  | worker
  | employer
  | admin
deriving Repr, DecidableEq

/-- JobStatus constants (schema.ts lines 15-20); `open` is a Lean keyword,
so the OPEN constant is embedded as `open'`. -/
inductive JobStatus where
  | open'
  | in_progress
  | completed
  | cancelled
deriving Repr, DecidableEq

/-- ApplicationStatus constants (schema.ts lines 25-31). -/
inductive ApplicationStatus where
  | pending
  | under_review
  | interview
  | accepted
  | rejected
deriving Repr, DecidableEq

/-- users table (schema.ts lines 36-50). `rating` is a JS float column,
modelled as an exact rational. -/
structure User where
  id : Nat
  username : String
  password : String
  email : String
  fullName : String
  phoneNumber : String
  userType : UserType
  profilePicture : Option String
  bio : Option String
  location : Option String
  rating : ℚ
  isVerified : Bool
  createdAt : Nat
deriving Repr, DecidableEq

/-- worker_profiles table (schema.ts lines 53-61); the jsonb columns carry
uninterpreted payloads. -/
structure WorkerProfile where
  id : Nat
  userId : Nat
  skills : Option (List String)
  experience : Option Int
  hourlyRate : Option Int
  availability : Option String
  documents : Option String
deriving Repr, DecidableEq

/-- jobs table (schema.ts lines 75-88). -/
structure Job where
  id : Nat
  employerId : Nat
  title : String
  description : String
  location : String
  skills : Option (List String)
  hourlyRate : Option Int
  jobType : String
  status : JobStatus
  startDate : Option Nat
  endDate : Option Nat
  createdAt : Nat
deriving Repr, DecidableEq

/-- applications table (schema.ts lines 91-104). -/
structure Application where
  id : Nat
  jobId : Nat
  workerId : Nat
  coverLetter : Option String
  resumeUrl : Option String
  availableToStart : Option Nat
  expectedRate : Option Int
  preferredHours : Option String
  referenceInfo : Option String
  status : ApplicationStatus
  appliedAt : Nat
  updatedAt : Nat
deriving Repr, DecidableEq

/-- ratings table (schema.ts lines 107-115). -/
structure Rating where
  id : Nat
  fromUserId : Nat
  toUserId : Nat
  jobId : Option Nat
  rating : Int
  review : Option String
  createdAt : Nat
deriving Repr, DecidableEq

/-- messages table (schema.ts lines 118-125). -/
structure Message where
  id : Nat
  fromUserId : Nat
  toUserId : Nat
  content : String
  isRead : Bool
  createdAt : Nat
deriving Repr, DecidableEq

/-- notifications table (schema.ts lines 128-137). -/
structure Notification where
  id : Nat
  userId : Nat
  title : String
  content : String
  type : String
  isRead : Bool
  relatedId : Option Nat
  createdAt : Nat
deriving Repr, DecidableEq

/-- insertApplicationSchema payload (schema.ts lines 163-174): id,
appliedAt and updatedAt are omitted; the status column keeps its schema
default and so may still be supplied by the client. -/
structure InsertApplication where
  jobId : Nat
  workerId : Nat
  coverLetter : Option String
  resumeUrl : Option String
  availableToStart : Option Nat
  expectedRate : Option Int
  preferredHours : Option String
  referenceInfo : Option String
  status : Option ApplicationStatus
deriving Repr, DecidableEq

/-- insertRatingSchema payload (schema.ts lines 176-179). -/
structure InsertRating where
  fromUserId : Nat
  toUserId : Nat
  jobId : Option Nat
  rating : Int
  review : Option String
deriving Repr, DecidableEq

/-- insertMessageSchema payload (schema.ts lines 181-185). -/
structure InsertMessage where
  fromUserId : Nat
  toUserId : Nat
  content : String
deriving Repr, DecidableEq

/-- The persistent store shared by both storage implementations: one list
per entity collection (insertion order) plus the id counters that model
MemStorage's counters / the SQL serial columns. -/
structure Storage where
  users : List User
  workerProfiles : List WorkerProfile
  jobs : List Job
  applications : List Application
  ratings : List Rating
  messages : List Message
  notifications : List Notification
  applicationIdCounter : Nat
  ratingIdCounter : Nat
  messageIdCounter : Nat
  notificationIdCounter : Nat
deriving Repr, DecidableEq

/-! ## A stable sort, modelling Array.prototype.sort / ORDER BY

V8's Array.prototype.sort is stable, and every stable sort for a total
preorder produces the same output, so a stable insertion sort is a faithful
model of the source's comparator sorts. -/

/-- Insert `a` into `l`, before the first element `b` with `le a b`;
stable because an element inserted later in the recursion of `sortBy`
came earlier in the original list and `le a a = true` for the comparators
used here. -/
def insertBy (le : α → α → Bool) (a : α) : List α → List α
  | [] => [a]
  | b :: bs => if le a b then a :: b :: bs else b :: insertBy le a bs

/-- Stable sort by the comparator `le`. -/
def sortBy (le : α → α → Bool) : List α → List α
  | [] => []
  | a :: as => insertBy le a (sortBy le as)

/-! ## MemStorage (src/server/auth.ts lines 280-684) -/

namespace MemStorage

/-- MemStorage.getUser (auth.ts line 328): `this.users.get(id)`. -/
def getUser (s : Storage) (id : Nat) : Option User :=
  s.users.find? (fun u => u.id = id)

/-- MemStorage.getWorkerProfile (auth.ts line 399): first profile with the
given userId. -/
def getWorkerProfile (s : Storage) (userId : Nat) : Option WorkerProfile :=
  s.workerProfiles.find? (fun p => p.userId = userId)

/-- MemStorage.getWorkerWithProfile (auth.ts lines 414-421): `undefined`
when the user is absent or not a worker, otherwise the user together with
its (possibly missing) profile. -/
def getWorkerWithProfile (s : Storage) (userId : Nat) :
    Option (User × Option WorkerProfile) :=
  match getUser s userId with
  | none => none
  | some u =>
    if u.userType = UserType.worker then some (u, getWorkerProfile s userId)
    else none

/-- MemStorage.getAllJobs (auth.ts line 494). -/
def getAllJobs (s : Storage) : List Job :=
  s.jobs

/-- MemStorage.getJob (auth.ts line 490). -/
def getJob (s : Storage) (id : Nat) : Option Job :=
  s.jobs.find? (fun j => j.id = id)

/-- MemStorage.getJobApplications (auth.ts lines 579-583). -/
def getJobApplications (s : Storage) (jobId : Nat) : List Application :=
  s.applications.filter (fun a => a.jobId = jobId)

/-- MemStorage.deleteJob (auth.ts lines 513-521): removes the job from the
map, then deletes every application whose jobId matches, one map-delete
(by application id) per application found. -/
def deleteJob (s : Storage) (id : Nat) : Storage :=
  let s1 : Storage := { s with jobs := s.jobs.filter (fun j => ¬ j.id = id) }
  let jobApps := getJobApplications s1 id
  { s1 with
    applications :=
      jobApps.foldl (fun acc a => acc.filter (fun b => ¬ b.id = a.id))
        s1.applications }

/-- The skill test of MemStorage.getMatchedJobsForWorker (auth.ts lines
530-537): false when job.skills or the profile's skills are null, else
true when some required skill is contained in the worker's skills. -/
def jobSkillMatch (job : Job) (profileSkills : Option (List String)) : Bool :=
  match job.skills, profileSkills with
  | none, _ => false
  | _, none => false
  | some js, some ws => js.any (fun sk => ws.contains sk)

/-- MemStorage.getMatchedJobsForWorker (auth.ts lines 523-538): empty when
the worker or its profile is missing, otherwise all jobs passing the
skill-overlap test. -/
def getMatchedJobsForWorker (s : Storage) (workerId : Nat) : List Job :=
  match getWorkerWithProfile s workerId with
  | none => []
  | some (_, none) => []
  | some (_, some p) =>
    (getAllJobs s).filter (fun job => jobSkillMatch job p.skills)

/-- MemStorage.getConversation (auth.ts lines 634-640): symmetric filter,
then a stable sort ascending by createdAt. -/
def getConversation (s : Storage) (user1Id user2Id : Nat) : List Message :=
  sortBy (fun a b => a.createdAt ≤ b.createdAt)
    (s.messages.filter (fun m =>
      (m.fromUserId = user1Id ∧ m.toUserId = user2Id) ∨
      (m.fromUserId = user2Id ∧ m.toUserId = user1Id)))

end MemStorage

/-! ## DatabaseStorage (src/server/auth.ts lines 694-1157) -/

namespace DatabaseStorage

/-- DatabaseStorage.getUser (auth.ts lines 716-719): first row with the
given id. -/
def getUser (s : Storage) (id : Nat) : Option User :=
  s.users.find? (fun u => u.id = id)

/-- DatabaseStorage.updateUser (auth.ts lines 739-746): `update users set
... where id = ...` touches every matching row; only the fields present in
the patch change.  Specialised to the rating patch used by
updateUserRating. -/
def updateUserSetRating (s : Storage) (id : Nat) (r : ℚ) : Storage :=
  { s with
    users := s.users.map (fun u => if u.id = id then { u with rating := r } else u) }

/-- DatabaseStorage.getWorkerProfile (auth.ts lines 783-789). -/
def getWorkerProfile (s : Storage) (userId : Nat) : Option WorkerProfile :=
  s.workerProfiles.find? (fun p => p.userId = userId)

/-- DatabaseStorage.getWorkerWithProfile (auth.ts lines 803-809). -/
def getWorkerWithProfile (s : Storage) (userId : Nat) :
    Option (User × Option WorkerProfile) :=
  match getUser s userId with
  | none => none
  | some u =>
    if u.userType = UserType.worker then some (u, getWorkerProfile s userId)
    else none

/-- DatabaseStorage.getJob (auth.ts lines 891-897). -/
def getJob (s : Storage) (id : Nat) : Option Job :=
  s.jobs.find? (fun j => j.id = id)

/-- DatabaseStorage.getJobApplications (auth.ts lines 1032-1037). -/
def getJobApplications (s : Storage) (jobId : Nat) : List Application :=
  s.applications.filter (fun a => a.jobId = jobId)

/-- DatabaseStorage.deleteJob (auth.ts lines 919-929): first delete every
application with this jobId, then delete the job row. -/
def deleteJob (s : Storage) (id : Nat) : Storage :=
  { s with
    applications := s.applications.filter (fun a => ¬ a.jobId = id),
    jobs := s.jobs.filter (fun j => ¬ j.id = id) }

/-- DatabaseStorage.getMatchedJobsForWorker (auth.ts lines 931-945): empty
when the worker, its profile, or the profile's skills column is missing;
otherwise the SQL array-overlap filter `jobs.skills && workerSkills`
(a row with NULL skills is never selected, an empty array overlaps
nothing). No job-status condition appears in the query. -/
def getMatchedJobsForWorker (s : Storage) (workerId : Nat) : List Job :=
  match getWorkerWithProfile s workerId with
  | none => []
  | some (_, none) => []
  | some (_, some p) =>
    match p.skills with
    | none => []
    | some ws =>
      s.jobs.filter (fun job =>
        match job.skills with
        | none => false
        | some js => js.any (fun sk => ws.contains sk))

/-- DatabaseStorage.createApplication (auth.ts lines 948-978): whatever
status the payload carries, the inserted row gets status "pending" and
appliedAt = updatedAt = now. -/
def createApplication (s : Storage) (a : InsertApplication) (now : Nat) :
    Storage × Application :=
  let app : Application :=
    { id := s.applicationIdCounter
      jobId := a.jobId
      workerId := a.workerId
      coverLetter := a.coverLetter
      resumeUrl := a.resumeUrl
      availableToStart := a.availableToStart
      expectedRate := a.expectedRate
      preferredHours := a.preferredHours
      referenceInfo := a.referenceInfo
      status := ApplicationStatus.pending
      appliedAt := now
      updatedAt := now }
  ({ s with
      applications := s.applications ++ [app]
      applicationIdCounter := s.applicationIdCounter + 1 }, app)

/-- DatabaseStorage.getApplicationByJobAndWorker (auth.ts lines 988-999). -/
def getApplicationByJobAndWorker (s : Storage) (jobId workerId : Nat) :
    Option Application :=
  s.applications.find? (fun a => a.jobId = jobId ∧ a.workerId = workerId)

/-- DatabaseStorage.getApplication (auth.ts lines 980-986). -/
def getApplication (s : Storage) (id : Nat) : Option Application :=
  s.applications.find? (fun a => a.id = id)

/-- DatabaseStorage.getUserRatings (auth.ts lines 1067-1072): all ratings
addressed to the user. -/
def getUserRatings (s : Storage) (userId : Nat) : List Rating :=
  s.ratings.filter (fun r => r.toUserId = userId)

/-- parseFloat(x.toFixed(1)): round to one decimal, ties away from zero
for the nonnegative averages that occur here (ECMA-262 toFixed picks the
larger candidate on a tie); JS float arithmetic is idealised as exact ℚ. -/
def round1 (q : ℚ) : ℚ :=
  (⌊q * 10 + 1 / 2⌋ : ℚ) / 10

/-- The average of a rating list: reduce((sum, r) => sum + r.rating, 0)
divided by length (auth.ts line 755). -/
def averageRating (rs : List Rating) : ℚ :=
  ((rs.map (fun r => r.rating)).sum : ℚ) / (rs.length : ℚ)

/-- DatabaseStorage.updateUserRating (auth.ts lines 748-758): with zero
ratings addressed to the user the store is untouched (the user is merely
re-read); otherwise the user's rating column is set to the rounded
average. -/
def updateUserRating (s : Storage) (userId : Nat) : Storage :=
  let rs := getUserRatings s userId
  if rs.isEmpty then s
  else updateUserSetRating s userId (round1 (averageRating rs))

/-- The rating row inserted by DatabaseStorage.createRating (auth.ts
lines 1053-1059). -/
def newRatingRow (s : Storage) (r : InsertRating) (now : Nat) : Rating :=
  { id := s.ratingIdCounter
    fromUserId := r.fromUserId
    toUserId := r.toUserId
    jobId := r.jobId
    rating := r.rating
    review := r.review
    createdAt := now }

/-- The store right after the insert step of createRating. -/
def ratingInserted (s : Storage) (r : InsertRating) (now : Nat) : Storage :=
  { s with
    ratings := s.ratings ++ [newRatingRow s r now]
    ratingIdCounter := s.ratingIdCounter + 1 }

/-- DatabaseStorage.createRating (auth.ts lines 1052-1065): inserts the
rating row, then recomputes the recipient's average. -/
def createRating (s : Storage) (r : InsertRating) (now : Nat) :
    Storage × Rating :=
  (updateUserRating (ratingInserted s r now) r.toUserId, newRatingRow s r now)

/-- DatabaseStorage.createMessage (auth.ts lines 1075-1085): inserts the
message with isRead = false. -/
def createMessage (s : Storage) (m : InsertMessage) (now : Nat) :
    Storage × Message :=
  let msg : Message :=
    { id := s.messageIdCounter
      fromUserId := m.fromUserId
      toUserId := m.toUserId
      content := m.content
      isRead := false
      createdAt := now }
  ({ s with
      messages := s.messages ++ [msg]
      messageIdCounter := s.messageIdCounter + 1 }, msg)

/-- DatabaseStorage.createNotification (auth.ts lines 1129-1139): inserts
the notification with isRead = false. -/
def createNotification (s : Storage) (userId : Nat) (title content ty : String)
    (relatedId : Option Nat) (now : Nat) : Storage × Notification :=
  let n : Notification :=
    { id := s.notificationIdCounter
      userId := userId
      title := title
      content := content
      type := ty
      isRead := false
      relatedId := relatedId
      createdAt := now }
  ({ s with
      notifications := s.notifications ++ [n]
      notificationIdCounter := s.notificationIdCounter + 1 }, n)

/-- DatabaseStorage.getConversation (auth.ts lines 1100-1117): symmetric
filter, then ORDER BY createdAt DESC. -/
def getConversation (s : Storage) (user1Id user2Id : Nat) : List Message :=
  sortBy (fun a b => b.createdAt ≤ a.createdAt)
    (s.messages.filter (fun m =>
      (m.fromUserId = user1Id ∧ m.toUserId = user2Id) ∨
      (m.fromUserId = user2Id ∧ m.toUserId = user1Id)))

/-- DatabaseStorage.updateApplication (auth.ts lines 1039-1049),
specialised below by `ApplicationPatch`; see `applyPatch`. -/
def updateApplicationWith (s : Storage) (id : Nat)
    (merge : Application → Application) (now : Nat) : Storage :=
  { s with
    applications := s.applications.map (fun a =>
      if a.id = id then { merge a with updatedAt := now } else a) }

end DatabaseStorage

/-! ## Error taxonomy (spec section 7, carried by the route handlers'
4xx responses in src/server/routes.ts) -/

/-- The five caller-visible failure kinds: 400 invalid data, 404, 400
state-precondition, 400 duplicate, 403 (optionally naming the offending
fields, routes.ts line 312). -/
inductive ApiError where
  | validation
  | notFound
  | ineligible
  | duplicate
  | forbidden (fields : List String)
deriving Repr, DecidableEq

deriving instance DecidableEq for Except

/-! ## Application patches (PUT /api/applications/:id request bodies) -/

/-- A Partial<Application> request body: a field is present in the JSON
object exactly when its component is `some`. -/
structure ApplicationPatch where
  jobId : Option Nat
  workerId : Option Nat
  coverLetter : Option String
  resumeUrl : Option String
  availableToStart : Option Nat
  expectedRate : Option Int
  preferredHours : Option String
  referenceInfo : Option String
  status : Option ApplicationStatus
  appliedAt : Option Nat
deriving Repr, DecidableEq

/-- Object.keys(req.body): the names of the fields present in the patch. -/
def patchKeys (p : ApplicationPatch) : List String :=
  (if p.jobId.isSome then ["jobId"] else []) ++
  (if p.workerId.isSome then ["workerId"] else []) ++
  (if p.coverLetter.isSome then ["coverLetter"] else []) ++
  (if p.resumeUrl.isSome then ["resumeUrl"] else []) ++
  (if p.availableToStart.isSome then ["availableToStart"] else []) ++
  (if p.expectedRate.isSome then ["expectedRate"] else []) ++
  (if p.preferredHours.isSome then ["preferredHours"] else []) ++
  (if p.referenceInfo.isSome then ["referenceInfo"] else []) ++
  (if p.status.isSome then ["status"] else []) ++
  (if p.appliedAt.isSome then ["appliedAt"] else [])

/-- allowedFields of the worker branch (routes.ts line 309). -/
def allowedWorkerFields : List String := ["coverLetter"]

/-- Object.keys(req.body).filter(field => !allowedFields.includes(field))
(routes.ts line 310). -/
def invalidFields (p : ApplicationPatch) : List String :=
  (patchKeys p).filter (fun f => ¬ allowedWorkerFields.contains f)

/-- The spread merge {...application, ...applicationData}: every present
patch field overrides the stored one. -/
def applyPatch (p : ApplicationPatch) (a : Application) : Application :=
  { a with
    jobId := p.jobId.getD a.jobId
    workerId := p.workerId.getD a.workerId
    coverLetter := (p.coverLetter.map some).getD a.coverLetter
    resumeUrl := (p.resumeUrl.map some).getD a.resumeUrl
    availableToStart := (p.availableToStart.map some).getD a.availableToStart
    expectedRate := (p.expectedRate.map some).getD a.expectedRate
    preferredHours := (p.preferredHours.map some).getD a.preferredHours
    referenceInfo := (p.referenceInfo.map some).getD a.referenceInfo
    status := p.status.getD a.status
    appliedAt := p.appliedAt.getD a.appliedAt }

/-! ## Route handlers (src/server/routes.ts), over the production
DatabaseStorage.  Every early error return leaves the store untouched. -/

/-- POST /api/applications (routes.ts lines 244-285): workerId is forced
to the authenticated worker, then the job-existence, job-status and
duplicate checks run in that order before the insert. -/
def postApplication (s : Storage) (workerId : Nat)
    (payload : InsertApplication) (now : Nat) :
    Storage × Except ApiError Application :=
  match DatabaseStorage.getJob s payload.jobId with
  | none => (s, Except.error ApiError.notFound)
  | some job =>
    if job.status ≠ JobStatus.open' ∧ job.status ≠ JobStatus.in_progress then
      (s, Except.error ApiError.ineligible)
    else
      match DatabaseStorage.getApplicationByJobAndWorker s payload.jobId workerId with
      | some _ => (s, Except.error ApiError.duplicate)
      | none =>
        ((DatabaseStorage.createApplication s { payload with workerId := workerId } now).1,
         Except.ok (DatabaseStorage.createApplication s { payload with workerId := workerId } now).2)

/-- PUT /api/applications/:id (routes.ts lines 287-321): employers may
only touch applications of jobs they own (a missing job also rejects,
since job?.employerId is then undefined); workers may only touch their
own application and only its coverLetter field; any other authenticated
role (admin) falls through both branches straight to the update. -/
def putApplication (s : Storage) (actor : User) (applicationId : Nat)
    (patch : ApplicationPatch) (now : Nat) :
    Storage × Except ApiError (Option Application) :=
  match DatabaseStorage.getApplication s applicationId with
  | none => (s, Except.error ApiError.notFound)
  | some app =>
    if actor.userType = UserType.employer ∧
        ¬ (DatabaseStorage.getJob s app.jobId).map Job.employerId = some actor.id then
      (s, Except.error (ApiError.forbidden []))
    else if actor.userType = UserType.worker ∧ ¬ app.workerId = actor.id then
      (s, Except.error (ApiError.forbidden []))
    else if actor.userType = UserType.worker ∧ ¬ invalidFields patch = [] then
      (s, Except.error (ApiError.forbidden (invalidFields patch)))
    else
      let s' := DatabaseStorage.updateApplicationWith s applicationId (applyPatch patch) now
      (s', Except.ok (DatabaseStorage.getApplication s' applicationId))

/-- The job-scoped checks of POST /api/ratings (routes.ts lines 338-355):
when a jobId is supplied, job existence, completed-status and the
participant checks, in source order. -/
def ratingJobCheck (s : Storage) (actor : User) (payload : InsertRating) :
    Option ApiError :=
  match payload.jobId with
  | none => none
  | some jid =>
    match DatabaseStorage.getJob s jid with
    | none => some ApiError.notFound
    | some job =>
      if ¬ job.status = JobStatus.completed then some ApiError.ineligible
      else if actor.userType = UserType.worker ∧
          ¬ job.employerId = payload.toUserId then some (ApiError.forbidden [])
      else if actor.userType = UserType.employer ∧
          ¬ job.employerId = actor.id then some (ApiError.forbidden [])
      else none

/-- POST /api/ratings (routes.ts lines 324-369): range check, the
job-scoped checks, then createRating (which itself recomputes the average,
auth.ts line 1062) followed by the route's own second updateUserRating
call (routes.ts line 360). -/
def postRating (s : Storage) (actor : User) (payload : InsertRating)
    (now : Nat) : Storage × Except ApiError Rating :=
  if payload.rating < 1 ∨ payload.rating > 5 then
    (s, Except.error ApiError.validation)
  else
    match ratingJobCheck s actor payload with
    | some e => (s, Except.error e)
    | none =>
      (DatabaseStorage.updateUserRating
        (DatabaseStorage.createRating s { payload with fromUserId := actor.id } now).1
        payload.toUserId,
       Except.ok (DatabaseStorage.createRating s { payload with fromUserId := actor.id } now).2)

/-! ## Connection registry and real-time delivery (routes.ts) -/

/-- A live WebSocket channel; isOpen models readyState === WebSocket.OPEN. -/
structure Channel where
  chanId : Nat
  isOpen : Bool
deriving Repr, DecidableEq

/-- activeConnections (routes.ts line 22): Map from user id to the user's
registered channels. -/
abbrev ConnRegistry := List (Nat × List Channel)

/-- activeConnections.get(userId). -/
def lookupConnections (reg : ConnRegistry) (userId : Nat) : Option (List Channel) :=
  (reg.find? (fun e => e.1 = userId)).map (fun e => e.2)

/-- app.locals.notifyUser (routes.ts lines 760-772): when the user has a
nonempty channel list, sends the payload to each channel whose readyState
is OPEN and returns true; otherwise returns false.  The first component
lists the channels which actually receive the payload. -/
def notifyUser (reg : ConnRegistry) (userId : Nat) : List Channel × Bool :=
  match lookupConnections reg userId with
  | some chans =>
    if chans.length > 0 then (chans.filter (fun c => c.isOpen), true)
    else ([], false)
  | none => ([], false)

/-- The observable steps of the message route, in execution order. -/
inductive RouterEvent where
  | persistedMessage (m : Message)
  | persistedNotification (n : Notification)
  | deliveryAttempt (toUserId : Nat) (receivers : List Channel) (delivered : Bool)
deriving Repr, DecidableEq

/-- POST /api/messages (routes.ts lines 393-431): persist the message,
persist the recipient's notification, then attempt best-effort real-time
delivery whose boolean result is ignored; the route answers 201 with the
message either way. -/
def postMessage (s : Storage) (reg : ConnRegistry) (sender : User)
    (payload : InsertMessage) (now : Nat) :
    Storage × List RouterEvent × Except ApiError Message :=
  let validated : InsertMessage := { payload with fromUserId := sender.id }
  let r1 := DatabaseStorage.createMessage s validated now
  let r2 := DatabaseStorage.createNotification r1.1 validated.toUserId
    ("New Message") ("You have a new message from " ++ sender.fullName)
    ("message") (some r1.2.id) now
  let d := notifyUser reg validated.toUserId
  (r2.1,
   [RouterEvent.persistedMessage r1.2, RouterEvent.persistedNotification r2.2,
    RouterEvent.deliveryAttempt validated.toUserId d.1 d.2],
   Except.ok r1.2)

/-! ## The doubly-registered job-match route (routes.ts lines 54-62 and
643-657) -/

/-- First registration of GET /api/jobs/match/:workerId (routes.ts lines
54-62): no worker-existence check, straight to the matcher. -/
def matchWorkerHandler1 (s : Storage) (workerId : Nat) :
    Except ApiError (List Job) :=
  Except.ok (DatabaseStorage.getMatchedJobsForWorker s workerId)

/-- Second registration of the same path (routes.ts lines 643-657):
404 when the worker is missing, then the same matcher. -/
def matchWorkerHandler2 (s : Storage) (workerId : Nat) :
    Except ApiError (List Job) :=
  match DatabaseStorage.getWorkerWithProfile s workerId with
  | none => Except.error ApiError.notFound
  | some _ => Except.ok (DatabaseStorage.getMatchedJobsForWorker s workerId)

/-- Express hands a request to the handlers registered for its path in
registration order, and a handler that responds (as both of these do on
every branch) terminates the request, so dispatch takes the first handler
of the registration list. -/
def dispatchFirst (handlers : List (Storage → Nat → Except ApiError (List Job)))
    (s : Storage) (workerId : Nat) : Except ApiError (List Job) :=
  match handlers with
  | [] => Except.error ApiError.notFound
  | h :: _ => h s workerId

/-- The registration order of the two handlers for
GET /api/jobs/match/:workerId in routes.ts. -/
def matchWorkerRegistrations : List (Storage → Nat → Except ApiError (List Job)) :=
  [matchWorkerHandler1, matchWorkerHandler2]

/-- What the deployed route does for GET /api/jobs/match/:workerId. -/
def matchWorkerRoute (s : Storage) (workerId : Nat) : Except ApiError (List Job) :=
  dispatchFirst matchWorkerRegistrations s workerId

/-! ## Spec-side definition used to refute claim C2's wording

The claim restricts the candidate set to open-or-active jobs; the source
never filters by job status.  This definition follows the claim's words
and is compared against the source's matcher. -/

/-- The matcher as the spec words it: the worker's skill set intersected
against the set of open-or-active jobs only. -/
def matchJobsSpecOpenOrActive (s : Storage) (workerId : Nat) : List Job :=
  match DatabaseStorage.getWorkerWithProfile s workerId with
  | none => []
  | some (_, none) => []
  | some (_, some p) =>
    match p.skills with
    | none => []
    | some ws =>
      (s.jobs.filter (fun j =>
        j.status = JobStatus.open' ∨ j.status = JobStatus.in_progress)).filter
        (fun job =>
          match job.skills with
          | none => false
          | some js => js.any (fun sk => ws.contains sk))

/-! ## Concrete fixtures for witnesses and counterexamples -/

def emptyStorage : Storage :=
  { users := [], workerProfiles := [], jobs := [], applications := []
    ratings := [], messages := [], notifications := []
    applicationIdCounter := 1, ratingIdCounter := 1
    messageIdCounter := 1, notificationIdCounter := 1 }

def mkUser (id : Nat) (ty : UserType) : User :=
  { id := id, username := "u", password := "pw", email := "e@x"
    fullName := "Test User", phoneNumber := "0123456789", userType := ty
    profilePicture := none, bio := none, location := none
    rating := 0, isVerified := false, createdAt := 0 }

def mkJob (id employerId : Nat) (st : JobStatus) (sk : Option (List String)) : Job :=
  { id := id, employerId := employerId, title := "t", description := "d"
    location := "loc", skills := sk, hourlyRate := none, jobType := "contract"
    status := st, startDate := none, endDate := none, createdAt := 0 }

def mkProfile (id userId : Nat) (sk : Option (List String)) : WorkerProfile :=
  { id := id, userId := userId, skills := sk, experience := none
    hourlyRate := none, availability := none, documents := none }

def emptyPatch : ApplicationPatch :=
  { jobId := none, workerId := none, coverLetter := none, resumeUrl := none
    availableToStart := none, expectedRate := none, preferredHours := none
    referenceInfo := none, status := none, appliedAt := none }

/- C1: two messages between users 1 and 2, the older first. -/

def msgC1a : Message :=
  { id := 1, fromUserId := 1, toUserId := 2, content := "hi"
    isRead := false, createdAt := 1 }

def msgC1b : Message :=
  { id := 2, fromUserId := 2, toUserId := 1, content := "there"
    isRead := false, createdAt := 2 }

def storeC1 : Storage :=
  { emptyStorage with messages := [msgC1a, msgC1b], messageIdCounter := 3 }

/- C2: a worker whose single skill also appears on a COMPLETED job. -/

def jobC2 : Job := mkJob 10 2 JobStatus.completed (some ["forklift", "painting"])

def storeC2 : Storage :=
  { emptyStorage with
    users := [mkUser 1 UserType.worker]
    workerProfiles := [mkProfile 1 1 (some ["welding", "forklift"])]
    jobs := [jobC2] }

/- C3: an open job for the success path, a completed one for eligibility. -/

def jobC3 : Job := mkJob 1 9 JobStatus.open' (some [])

def storeC3 : Storage := { emptyStorage with jobs := [jobC3] }

def payloadC3 : InsertApplication :=
  { jobId := 1, workerId := 0, coverLetter := none, resumeUrl := none
    availableToStart := none, expectedRate := none, preferredHours := none
    referenceInfo := none, status := some ApplicationStatus.accepted }

def appC3 : Application :=
  { id := 1, jobId := 1, workerId := 1, coverLetter := none, resumeUrl := none
    availableToStart := none, expectedRate := none, preferredHours := none
    referenceInfo := none, status := ApplicationStatus.pending
    appliedAt := 5, updatedAt := 5 }

def storeC3ok : Storage :=
  { storeC3 with applications := [appC3], applicationIdCounter := 2 }

def jobC3x : Job := mkJob 1 9 JobStatus.completed (some [])

def storeC3x : Storage := { emptyStorage with jobs := [jobC3x] }

/- C5: an existing application; once with the job completed (refutation),
once with it open (amended claim's witness). -/

def appC5 : Application :=
  { id := 1, jobId := 1, workerId := 2, coverLetter := none, resumeUrl := none
    availableToStart := none, expectedRate := none, preferredHours := none
    referenceInfo := none, status := ApplicationStatus.pending
    appliedAt := 0, updatedAt := 0 }

def storeC5cex : Storage :=
  { emptyStorage with
    jobs := [mkJob 1 9 JobStatus.completed none]
    applications := [appC5], applicationIdCounter := 2 }

def storeC5w : Storage :=
  { emptyStorage with
    jobs := [mkJob 1 9 JobStatus.open' none]
    applications := [appC5], applicationIdCounter := 2 }

def payloadC5 : InsertApplication :=
  { jobId := 1, workerId := 0, coverLetter := none, resumeUrl := none
    availableToStart := none, expectedRate := none, preferredHours := none
    referenceInfo := none, status := none }

/- C6: a worker who owns application 1, an employer who does not own job 1. -/

def workerC6 : User := mkUser 3 UserType.worker

def employerC6 : User := mkUser 4 UserType.employer

def appC6 : Application :=
  { id := 1, jobId := 1, workerId := 3, coverLetter := none, resumeUrl := none
    availableToStart := none, expectedRate := none, preferredHours := none
    referenceInfo := none, status := ApplicationStatus.pending
    appliedAt := 0, updatedAt := 0 }

def storeC6 : Storage :=
  { emptyStorage with
    jobs := [mkJob 1 9 JobStatus.open' none]
    applications := [appC6], applicationIdCounter := 2 }

def patchC6 : ApplicationPatch :=
  { emptyPatch with status := some ApplicationStatus.accepted }

/- C4: one recipient user, a rating of 4 arriving with no jobId. -/

def userC4 : User := mkUser 2 UserType.worker

def actorC4 : User := mkUser 1 UserType.employer

def storeC4 : Storage := { emptyStorage with users := [userC4] }

def payloadC4 : InsertRating :=
  { fromUserId := 0, toUserId := 2, jobId := none, rating := 4, review := none }

def ratingC4 : Rating :=
  { id := 1, fromUserId := 1, toUserId := 2, jobId := none, rating := 4
    review := none, createdAt := 7 }

def userC4' : User := { userC4 with rating := 4 }

def storeC4' : Storage :=
  { storeC4 with
    users := [userC4'], ratings := [ratingC4], ratingIdCounter := 2 }

/- C9: user 1 holds exactly one registered channel, already closed. -/

def closedChanC9 : Channel := { chanId := 1, isOpen := false }

def regC9 : ConnRegistry := [(1, [closedChanC9])]

/-! ## Helper lemmas -/

/-- Membership after repeatedly filtering an accumulator, one filter pass
per element of `l` (the delete loop of MemStorage.deleteJob). -/
theorem mem_foldl_filter {α β : Type} (q : β → α → Bool) (l : List α)
    (init : List β) (x : β) :
    x ∈ l.foldl (fun acc a => acc.filter (fun b => q b a)) init ↔
      x ∈ init ∧ ∀ a ∈ l, q x a := by
  induction l generalizing init with
  | nil => simp
  | cons a as ih =>
    rw [List.foldl_cons, ih]
    simp only [List.mem_filter, List.mem_cons]
    constructor
    · rintro ⟨⟨hx, hq⟩, hall⟩
      exact ⟨hx, fun b hb => by rcases hb with rfl | hb; exact hq; exact hall b hb⟩
    · rintro ⟨hx, hall⟩
      exact ⟨⟨hx, hall a (Or.inl rfl)⟩, fun b hb => hall b (Or.inr hb)⟩

/-! ## Claims -/

/-- C7: after deleteJob(id) completes, listing applications by that job
returns the empty set, in both storage implementations. -/
theorem deleteJob_cascades (s : Storage) (id : Nat) :
    MemStorage.getJobApplications (MemStorage.deleteJob s id) id = []
  ∧ DatabaseStorage.getJobApplications (DatabaseStorage.deleteJob s id) id = [] := by
  constructor
  · unfold MemStorage.getJobApplications MemStorage.deleteJob
    rw [List.filter_eq_nil_iff]
    intro b hb
    rw [mem_foldl_filter] at hb
    obtain ⟨hmem, hall⟩ := hb
    intro hjob
    have hb' : b ∈ MemStorage.getJobApplications
        { s with jobs := s.jobs.filter (fun j => ¬ j.id = id) } id := by
      unfold MemStorage.getJobApplications
      rw [List.mem_filter]
      exact ⟨hmem, hjob⟩
    have := hall b hb'
    simp at this
  · unfold DatabaseStorage.getJobApplications DatabaseStorage.deleteJob
    rw [List.filter_eq_nil_iff]
    intro b hb
    rw [List.mem_filter] at hb
    simpa using hb.2

/-- C10: the first-registered handler for GET /api/jobs/match/:workerId
performs no worker-existence check and answers the request, so for a
missing worker the route returns the empty list while the shadowed second
registration would have returned 404. -/
theorem match_route_shadowing (s : Storage) (w : Nat)
    (h : DatabaseStorage.getWorkerWithProfile s w = none) :
    matchWorkerRoute s w = Except.ok []
  ∧ matchWorkerRoute s w = matchWorkerHandler1 s w
  ∧ matchWorkerHandler2 s w = Except.error ApiError.notFound := by
  refine ⟨?_, rfl, ?_⟩
  · show matchWorkerHandler1 s w = _
    unfold matchWorkerHandler1 DatabaseStorage.getMatchedJobsForWorker
    rw [h]
  · unfold matchWorkerHandler2
    rw [h]

/-- Witness for C10 at the empty store: no user 1 exists. -/
theorem match_route_shadowing_witness :
    matchWorkerRoute emptyStorage 1 = Except.ok []
  ∧ matchWorkerRoute emptyStorage 1 = matchWorkerHandler1 emptyStorage 1
  ∧ matchWorkerHandler2 emptyStorage 1 = Except.error ApiError.notFound :=
  match_route_shadowing emptyStorage 1 (by decide)

/-- C9 (counterexample): a user whose only registered channel is closed:
no channel receives the payload, yet notifyUser returns true. -/
theorem notify_true_without_receivers :
    (notifyUser regC9 1).1 = [] ∧ (notifyUser regC9 1).2 = true := by decide

/-- C9 (amended): notifyUser delivers the payload to exactly the open
channels among those registered for the user, and returns true iff the
user has at least one REGISTERED channel (open or not); with zero
registered channels it returns false and delivers nothing. -/
theorem notify_characterization (reg : ConnRegistry) (userId : Nat) :
    (notifyUser reg userId).1 =
      ((lookupConnections reg userId).getD []).filter (fun c => c.isOpen)
  ∧ ((notifyUser reg userId).2 = true ↔
      (lookupConnections reg userId).getD [] ≠ []) := by
  unfold notifyUser
  cases h : lookupConnections reg userId with
  | none => simp
  | some chans =>
    cases chans with
    | nil => simp
    | cons c cs => simp

/-- C1 (code evaluated at the failing input): between users 1 and 2 the
production DatabaseStorage.getConversation returns the NEWER message
first (ORDER BY createdAt DESC), while the sibling MemStorage
implementation of the same interface returns ascending order as the spec
requires. -/
theorem getConversation_db_descending :
    DatabaseStorage.getConversation storeC1 1 2 = [msgC1b, msgC1a]
  ∧ MemStorage.getConversation storeC1 1 2 = [msgC1a, msgC1b]
  ∧ msgC1a.createdAt < msgC1b.createdAt := by decide

/-- C2 (counterexample): the worker shares the skill "forklift" with a
COMPLETED job; the source's matcher returns that job, but the claim's
open-or-active candidate set would return nothing. -/
theorem matchedJobs_includes_completed_job :
    DatabaseStorage.getMatchedJobsForWorker storeC2 1 = [jobC2]
  ∧ jobC2.status = JobStatus.completed
  ∧ matchJobsSpecOpenOrActive storeC2 1 = [] := by decide

/-- C2 (amended): the matcher draws candidates from ALL jobs regardless of
status; a job is returned iff the worker resolves to a worker user with a
profile whose skills column is present and the job's declared skill list
shares at least one skill with it (so a worker with no profile yields [],
and a job with no declared skills never matches).  MemStorage and
DatabaseStorage agree extensionally. -/
theorem matchedJobs_characterization (s : Storage) (w : Nat) (j : Job) :
    (j ∈ DatabaseStorage.getMatchedJobsForWorker s w ↔
      ∃ u p ws, DatabaseStorage.getWorkerWithProfile s w = some (u, some p) ∧
        p.skills = some ws ∧ j ∈ s.jobs ∧ ∃ sk ∈ j.skills.getD [], sk ∈ ws)
  ∧ MemStorage.getMatchedJobsForWorker s w = DatabaseStorage.getMatchedJobsForWorker s w
  ∧ (DatabaseStorage.getWorkerWithProfile s w = none →
      DatabaseStorage.getMatchedJobsForWorker s w = []) := by
  have hsame : MemStorage.getWorkerWithProfile s w = DatabaseStorage.getWorkerWithProfile s w := rfl
  refine ⟨?_, ?_, ?_⟩
  · unfold DatabaseStorage.getMatchedJobsForWorker
    cases hW : DatabaseStorage.getWorkerWithProfile s w with
    | none => simp
    | some up =>
      obtain ⟨u, op⟩ := up
      cases op with
      | none => simp
      | some p =>
        dsimp only
        cases hsk : p.skills with
        | none => simp [hsk]
        | some ws =>
          rw [List.mem_filter]
          constructor
          · rintro ⟨hj, hpred⟩
            refine ⟨u, p, ws, rfl, hsk, hj, ?_⟩
            cases hjs : j.skills with
            | none => rw [hjs] at hpred; simp at hpred
            | some js =>
              rw [hjs] at hpred
              simp only [List.any_eq_true] at hpred
              obtain ⟨sk, hskmem, hc⟩ := hpred
              exact ⟨sk, by simpa [hjs] using hskmem, by simpa using hc⟩
          · rintro ⟨u', p', ws', heq, hsk', hj, sk, hskj, hskw⟩
            obtain ⟨hu, hp⟩ : u' = u ∧ p' = p := by
              injection heq with h1
              injection h1 with h2 h3
              exact ⟨h2.symm, (Option.some.inj h3).symm⟩
            subst hu hp
            rw [hsk] at hsk'
            obtain rfl : ws = ws' := Option.some.inj hsk'
            refine ⟨hj, ?_⟩
            cases hjs : j.skills with
            | none => rw [hjs] at hskj; simp at hskj
            | some js =>
              rw [hjs] at hskj
              simp only [Option.getD_some] at hskj
              simp only [List.any_eq_true]
              exact ⟨sk, hskj, by simpa using hskw⟩
  · unfold MemStorage.getMatchedJobsForWorker DatabaseStorage.getMatchedJobsForWorker
    rw [hsame]
    cases hW : DatabaseStorage.getWorkerWithProfile s w with
    | none => rfl
    | some up =>
      obtain ⟨u, op⟩ := up
      cases op with
      | none => rfl
      | some p =>
        dsimp only
        cases hsk : p.skills with
        | none =>
          rw [List.filter_eq_nil_iff]
          intro j _
          unfold MemStorage.jobSkillMatch
          cases j.skills <;> simp
        | some ws =>
          apply List.filter_congr
          intro j _
          unfold MemStorage.jobSkillMatch
          cases j.skills <;> rfl
  · intro h
    unfold DatabaseStorage.getMatchedJobsForWorker
    rw [h]

/-- Witness for C2's amended characterisation at the concrete store: the
completed job is in the result because "forklift" is shared. -/
theorem matchedJobs_characterization_witness :
    (jobC2 ∈ DatabaseStorage.getMatchedJobsForWorker storeC2 1 ↔
      ∃ u p ws, DatabaseStorage.getWorkerWithProfile storeC2 1 = some (u, some p) ∧
        p.skills = some ws ∧ jobC2 ∈ storeC2.jobs ∧ ∃ sk ∈ jobC2.skills.getD [], sk ∈ ws)
  ∧ MemStorage.getMatchedJobsForWorker storeC2 1 =
      DatabaseStorage.getMatchedJobsForWorker storeC2 1
  ∧ (DatabaseStorage.getWorkerWithProfile storeC2 1 = none →
      DatabaseStorage.getMatchedJobsForWorker storeC2 1 = []) :=
  matchedJobs_characterization storeC2 1 jobC2

/-- C3: every successful submission persists the Application with status
pending and appliedAt = updatedAt = now, whatever status the payload
carried; and with the referenced job in any status other than open or
in_progress the submission fails with the ineligible error. -/
theorem submitApplication_pending_and_eligibility (s : Storage) (w : Nat)
    (payload : InsertApplication) (now : Nat) :
    (∀ s' app, postApplication s w payload now = (s', Except.ok app) →
      app.status = ApplicationStatus.pending ∧ app.appliedAt = now ∧
      app.updatedAt = now ∧ app ∈ s'.applications)
  ∧ (∀ job, DatabaseStorage.getJob s payload.jobId = some job →
      job.status ≠ JobStatus.open' → job.status ≠ JobStatus.in_progress →
      postApplication s w payload now = (s, Except.error ApiError.ineligible)) := by
  constructor
  · intro s' app h
    unfold postApplication at h
    cases hj : DatabaseStorage.getJob s payload.jobId with
    | none => rw [hj] at h; simp at h
    | some job =>
      rw [hj] at h
      dsimp only at h
      by_cases hst : job.status ≠ JobStatus.open' ∧ job.status ≠ JobStatus.in_progress
      · rw [if_pos hst] at h; simp at h
      · rw [if_neg hst] at h
        cases hd : DatabaseStorage.getApplicationByJobAndWorker s payload.jobId w with
        | some _ => rw [hd] at h; simp at h
        | none =>
          rw [hd] at h
          dsimp only at h
          rw [Prod.mk.injEq] at h
          obtain ⟨hs, hap⟩ := h
          obtain rfl := Except.ok.inj hap
          subst hs
          refine ⟨rfl, rfl, rfl, ?_⟩
          exact List.mem_append_right _ (List.mem_singleton_self _)
  · intro job hj h1 h2
    unfold postApplication
    rw [hj]
    dsimp only
    rw [if_pos ⟨h1, h2⟩]

/-- Witness for C3: a payload that supplies status "accepted" is persisted
as pending with both timestamps 5; the same payload against a completed
job is rejected as ineligible. -/
theorem submitApplication_pending_and_eligibility_witness :
    (appC3.status = ApplicationStatus.pending ∧ appC3.appliedAt = 5 ∧
      appC3.updatedAt = 5 ∧ appC3 ∈ storeC3ok.applications)
  ∧ postApplication storeC3x 1 payloadC3 5 = (storeC3x, Except.error ApiError.ineligible) :=
  ⟨(submitApplication_pending_and_eligibility storeC3 1 payloadC3 5).1
      storeC3ok appC3 (by decide),
   (submitApplication_pending_and_eligibility storeC3x 1 payloadC3 5).2
      jobC3x (by decide) (by decide) (by decide)⟩

/-- C5 (counterexample): an Application for (job 1, worker 2) exists and
the job has meanwhile been completed; the second submission fails with the
ineligible error, not the duplicate error the claim names. -/
theorem secondApplication_error_kind_cex :
    DatabaseStorage.getApplicationByJobAndWorker storeC5cex 1 2 = some appC5
  ∧ postApplication storeC5cex 2 payloadC5 9 = (storeC5cex, Except.error ApiError.ineligible)
  ∧ ApiError.ineligible ≠ ApiError.duplicate := by decide

/-- C5 (amended): when an Application for (jobId, workerId) already
exists, a second submission never mutates the store (the existing
Application in particular is unchanged) and always fails; the failure is
the DuplicateError precisely when the job still exists with status open or
in_progress (it is NotFound or Ineligible otherwise, since those checks
run first, routes.ts lines 258-270). -/
theorem secondApplication_never_persists (s : Storage) (w : Nat)
    (payload : InsertApplication) (now : Nat) (ex : Application)
    (hex : DatabaseStorage.getApplicationByJobAndWorker s payload.jobId w = some ex) :
    (postApplication s w payload now).1 = s
  ∧ (∃ e, (postApplication s w payload now).2 = Except.error e)
  ∧ (∀ job, DatabaseStorage.getJob s payload.jobId = some job →
      job.status = JobStatus.open' ∨ job.status = JobStatus.in_progress →
      (postApplication s w payload now).2 = Except.error ApiError.duplicate) := by
  unfold postApplication
  cases hj : DatabaseStorage.getJob s payload.jobId with
  | none =>
    refine ⟨rfl, ⟨ApiError.notFound, rfl⟩, ?_⟩
    intro job hjob
    exact Option.noConfusion hjob
  | some job =>
    dsimp only
    by_cases hst : job.status ≠ JobStatus.open' ∧ job.status ≠ JobStatus.in_progress
    · rw [if_pos hst]
      refine ⟨rfl, ⟨ApiError.ineligible, rfl⟩, ?_⟩
      intro job' hjob' hopen
      obtain rfl : job = job' := Option.some.inj hjob'
      rcases hopen with h | h
      · exact absurd h hst.1
      · exact absurd h hst.2
    · rw [if_neg hst, hex]
      exact ⟨rfl, ⟨ApiError.duplicate, rfl⟩, fun _ _ _ => rfl⟩

/-- Witness for C5's amended statement: with the job still open, the
second submission is rejected with the duplicate error and the store is
returned unchanged. -/
theorem secondApplication_never_persists_witness :
    (postApplication storeC5w 2 payloadC5 9).1 = storeC5w
  ∧ (∃ e, (postApplication storeC5w 2 payloadC5 9).2 = Except.error e)
  ∧ (∀ job, DatabaseStorage.getJob storeC5w payloadC5.jobId = some job →
      job.status = JobStatus.open' ∨ job.status = JobStatus.in_progress →
      (postApplication storeC5w 2 payloadC5 9).2 = Except.error ApiError.duplicate) :=
  secondApplication_never_persists storeC5w 2 payloadC5 9 appC5 (by decide)

/-- C6: a worker patching their own application with any field beyond the
cover letter is rejected with the forbidden error naming exactly the
offending fields; an employer acting on an application of a job they do
not own is rejected with the forbidden error; and the store mutates only
when the role-specific checks pass. -/
theorem updateApplication_authorization (s : Storage) (actor : User)
    (aid : Nat) (patch : ApplicationPatch) (now : Nat) :
    (∀ app, actor.userType = UserType.worker →
      DatabaseStorage.getApplication s aid = some app →
      app.workerId = actor.id →
      invalidFields patch ≠ [] →
      putApplication s actor aid patch now =
        (s, Except.error (ApiError.forbidden (invalidFields patch))))
  ∧ (∀ app, actor.userType = UserType.employer →
      DatabaseStorage.getApplication s aid = some app →
      (DatabaseStorage.getJob s app.jobId).map Job.employerId ≠ some actor.id →
      putApplication s actor aid patch now = (s, Except.error (ApiError.forbidden [])))
  ∧ ((putApplication s actor aid patch now).1 ≠ s →
      ∃ app, DatabaseStorage.getApplication s aid = some app ∧
        (actor.userType = UserType.worker →
          app.workerId = actor.id ∧ invalidFields patch = []) ∧
        (actor.userType = UserType.employer →
          (DatabaseStorage.getJob s app.jobId).map Job.employerId = some actor.id)) := by
  refine ⟨?_, ?_, ?_⟩
  · intro app hw happ hown hinv
    unfold putApplication
    rw [happ]
    dsimp only
    rw [if_neg (fun hc => by rw [hw] at hc; exact absurd hc.1 (by decide))]
    rw [if_neg (fun hc => hc.2 hown)]
    rw [if_pos ⟨hw, hinv⟩]
  · intro app he happ hnot
    unfold putApplication
    rw [happ]
    dsimp only
    rw [if_pos ⟨he, hnot⟩]
  · intro hne
    unfold putApplication at hne
    cases happ : DatabaseStorage.getApplication s aid with
    | none => rw [happ] at hne; exact absurd rfl hne
    | some app =>
      rw [happ] at hne
      dsimp only at hne
      by_cases hc1 : actor.userType = UserType.employer ∧
          ¬ (DatabaseStorage.getJob s app.jobId).map Job.employerId = some actor.id
      · rw [if_pos hc1] at hne; exact absurd rfl hne
      · rw [if_neg hc1] at hne
        by_cases hc2 : actor.userType = UserType.worker ∧ ¬ app.workerId = actor.id
        · rw [if_pos hc2] at hne; exact absurd rfl hne
        · rw [if_neg hc2] at hne
          by_cases hc3 : actor.userType = UserType.worker ∧ ¬ invalidFields patch = []
          · rw [if_pos hc3] at hne; exact absurd rfl hne
          · refine ⟨app, rfl, ?_, ?_⟩
            · intro hw
              constructor
              · by_contra hno
                exact hc2 ⟨hw, hno⟩
              · by_contra hno
                exact hc3 ⟨hw, hno⟩
            · intro he
              by_contra hno
              exact hc1 ⟨he, hno⟩

/-- Witness for C6: the worker patching status on their own application is
rejected naming ["status"]; the employer who does not own job 1 is
rejected on an empty patch. -/
theorem updateApplication_authorization_witness :
    (putApplication storeC6 workerC6 1 patchC6 9 =
        (storeC6, Except.error (ApiError.forbidden (invalidFields patchC6)))
      ∧ invalidFields patchC6 = ["status"])
  ∧ putApplication storeC6 employerC6 1 emptyPatch 9 =
      (storeC6, Except.error (ApiError.forbidden [])) :=
  ⟨⟨(updateApplication_authorization storeC6 workerC6 1 patchC6 9).1 appC6
      (by decide) (by decide) (by decide) (by decide), by decide⟩,
   (updateApplication_authorization storeC6 employerC6 1 emptyPatch 9).2.1 appC6
      (by decide) (by decide) (by decide)⟩

/-- C8: every sendMessage call persists the Message (isRead = false) and a
Notification for the recipient (type "message", relatedId = the message
id) in the resulting store, the two persist events precede the delivery
attempt in the route's event order, the resulting store does not depend on
the connection registry, and the route reports success to the sender for
every registry — in particular when the recipient has zero live
channels. -/
theorem sendMessage_durability (s : Storage) (reg : ConnRegistry)
    (sender : User) (payload : InsertMessage) (now : Nat) :
    ∃ msg ntf,
      (postMessage s reg sender payload now).2.2 = Except.ok msg
    ∧ msg.isRead = false
    ∧ msg ∈ (postMessage s reg sender payload now).1.messages
    ∧ ntf ∈ (postMessage s reg sender payload now).1.notifications
    ∧ ntf.userId = payload.toUserId
    ∧ ntf.type = "message"
    ∧ ntf.relatedId = some msg.id
    ∧ (postMessage s reg sender payload now).2.1 =
        [RouterEvent.persistedMessage msg, RouterEvent.persistedNotification ntf,
         RouterEvent.deliveryAttempt payload.toUserId
           (notifyUser reg payload.toUserId).1 (notifyUser reg payload.toUserId).2]
    ∧ (postMessage s reg sender payload now).1 =
        (postMessage s [] sender payload now).1 := by
  refine ⟨(DatabaseStorage.createMessage s { payload with fromUserId := sender.id } now).2,
          (DatabaseStorage.createNotification
            (DatabaseStorage.createMessage s { payload with fromUserId := sender.id } now).1
            payload.toUserId ("New Message")
            ("You have a new message from " ++ sender.fullName) ("message")
            (some (DatabaseStorage.createMessage s { payload with fromUserId := sender.id } now).2.id)
            now).2,
          rfl, rfl, ?_, ?_, rfl, rfl, rfl, rfl, rfl⟩
  · exact List.mem_append_right _ (List.mem_singleton_self _)
  · exact List.mem_append_right _ (List.mem_singleton_self _)

/-- Setting the rating column of every user row with the given id and then
looking the id up yields a user carrying the new rating. -/
theorem find?_setRating (l : List User) (uid : Nat) (r : ℚ) :
    ∀ u, (l.map (fun x => if x.id = uid then { x with rating := r } else x)).find?
        (fun x => x.id = uid) = some u → u.rating = r := by
  induction l with
  | nil => intro u h; simp at h
  | cons a as ih =>
    intro u h
    rw [List.map_cons] at h
    by_cases ha : a.id = uid
    · rw [if_pos ha, List.find?_cons_of_pos _ (by simpa using ha)] at h
      obtain rfl := (Option.some.inj h).symm
      rfl
    · rw [if_neg ha, List.find?_cons_of_neg _ (by simpa using ha)] at h
      exact ih u h

/-- updateUserRating never touches the ratings collection. -/
theorem getUserRatings_updateUserRating (s : Storage) (uid target : Nat) :
    DatabaseStorage.getUserRatings (DatabaseStorage.updateUserRating s uid) target =
      DatabaseStorage.getUserRatings s target := by
  unfold DatabaseStorage.updateUserRating
  dsimp only
  split
  · rfl
  · rfl

/-- Looking up a user after updateUserSetRating on the same id yields the
new rating. -/
theorem getUser_after_setRating (s : Storage) (uid : Nat) (r : ℚ) (u : User)
    (h : DatabaseStorage.getUser (DatabaseStorage.updateUserSetRating s uid r) uid = some u) :
    u.rating = r :=
  find?_setRating s.users uid r u h

/-- With at least one rating addressed to the user, updateUserRating takes
the recompute branch. -/
theorem updateUserRating_nonempty (s : Storage) (uid : Nat)
    (h : DatabaseStorage.getUserRatings s uid ≠ []) :
    DatabaseStorage.updateUserRating s uid =
      DatabaseStorage.updateUserSetRating s uid
        (DatabaseStorage.round1 (DatabaseStorage.averageRating
          (DatabaseStorage.getUserRatings s uid))) := by
  unfold DatabaseStorage.updateUserRating
  rw [if_neg (by simpa using h)]

/-- After createRating (which recomputes once) and a further
updateUserRating on the recipient, the recipient's stored rating is the
rounded average of the ratings addressed to them in the final store. -/
theorem rating_recomputed (s : Storage) (v : InsertRating) (now : Nat) (u : User)
    (hu : DatabaseStorage.getUser
        (DatabaseStorage.updateUserRating (DatabaseStorage.createRating s v now).1 v.toUserId)
        v.toUserId = some u) :
    u.rating = DatabaseStorage.round1 (DatabaseStorage.averageRating
      (DatabaseStorage.getUserRatings
        (DatabaseStorage.updateUserRating (DatabaseStorage.createRating s v now).1 v.toUserId)
        v.toUserId)) := by
  have hne : DatabaseStorage.getUserRatings
      (DatabaseStorage.ratingInserted s v now) v.toUserId ≠ [] := by
    intro hnil
    have hmem : DatabaseStorage.newRatingRow s v now ∈
        DatabaseStorage.getUserRatings (DatabaseStorage.ratingInserted s v now) v.toUserId := by
      unfold DatabaseStorage.getUserRatings DatabaseStorage.ratingInserted
      rw [List.mem_filter]
      exact ⟨List.mem_append_right _ (List.mem_singleton_self _),
        by simp [DatabaseStorage.newRatingRow]⟩
    rw [hnil] at hmem
    exact absurd hmem (List.not_mem_nil _)
  have hcr : (DatabaseStorage.createRating s v now).1 =
      DatabaseStorage.updateUserRating (DatabaseStorage.ratingInserted s v now) v.toUserId := rfl
  rw [hcr] at hu ⊢
  have hne2 : DatabaseStorage.getUserRatings
      (DatabaseStorage.updateUserRating (DatabaseStorage.ratingInserted s v now) v.toUserId)
      v.toUserId ≠ [] := by
    rw [getUserRatings_updateUserRating]
    exact hne
  rw [updateUserRating_nonempty _ _ hne2] at hu
  rw [getUserRatings_updateUserRating]
  exact getUser_after_setRating _ _ _ u hu

/-- C4: after every successful rating submission the recipient's stored
rating equals the one-decimal rounding of the arithmetic mean of all
ratings addressed to them; and with zero ratings on record
updateUserRating leaves the store (hence the prior rating) unchanged,
taking the guard branch rather than dividing by zero. -/
theorem rating_average_invariant (s : Storage) (actor : User)
    (payload : InsertRating) (now : Nat) :
    (∀ s' r, postRating s actor payload now = (s', Except.ok r) →
      ∀ u, DatabaseStorage.getUser s' payload.toUserId = some u →
        u.rating = DatabaseStorage.round1
          (DatabaseStorage.averageRating
            (DatabaseStorage.getUserRatings s' payload.toUserId)))
  ∧ (∀ uid, DatabaseStorage.getUserRatings s uid = [] →
      DatabaseStorage.updateUserRating s uid = s) := by
  constructor
  · intro s' r h u hu
    unfold postRating at h
    by_cases hrange : payload.rating < 1 ∨ payload.rating > 5
    · rw [if_pos hrange] at h; simp at h
    · rw [if_neg hrange] at h
      cases hchk : ratingJobCheck s actor payload with
      | some e => rw [hchk] at h; simp at h
      | none =>
        rw [hchk] at h
        dsimp only at h
        rw [Prod.mk.injEq] at h
        obtain ⟨hs, hr⟩ := h
        subst hs
        exact rating_recomputed s { payload with fromUserId := actor.id } now u hu
  · intro uid hnil
    unfold DatabaseStorage.updateUserRating
    rw [hnil]
    rfl

/-- Witness for C4: a single rating of 4 arriving for user 2 leaves them
with stored rating round1(4/1) = 4, and updateUserRating for a user with
zero ratings (id 5) returns the store unchanged. -/
theorem rating_average_invariant_witness :
    userC4'.rating = DatabaseStorage.round1
      (DatabaseStorage.averageRating (DatabaseStorage.getUserRatings storeC4' 2))
  ∧ DatabaseStorage.updateUserRating storeC4 5 = storeC4 := by
  constructor
  · refine (rating_average_invariant storeC4 actorC4 payloadC4 7).1 storeC4' ratingC4 ?_ userC4' (by decide)
    simp [postRating, ratingJobCheck, payloadC4, actorC4, mkUser,
      DatabaseStorage.createRating, DatabaseStorage.ratingInserted,
      DatabaseStorage.newRatingRow, DatabaseStorage.updateUserRating,
      DatabaseStorage.getUserRatings, DatabaseStorage.updateUserSetRating,
      storeC4, storeC4', emptyStorage, userC4, userC4', ratingC4,
      DatabaseStorage.round1, DatabaseStorage.averageRating]
    norm_num
  · exact (rating_average_invariant storeC4 actorC4 payloadC4 7).2 5 (by decide)
